import Mathlib

/-!
Verification of the oplog-emitter library (src/lib/index.js) against its
design specification. The JavaScript source is shallowly embedded: JS values
relevant to argument validation are modelled by an inductive `JSValue`
(with JS `typeof` and truthiness semantics), `validateArgs` is a direct
translation of the source function, the event router is a pure function
from a raw oplog document to the list of emitted signals, and the
namespace test embeds `String.prototype.match` for the regex fragment the
source can build (literal characters, the wildcard dot, the Kleene star,
and backslash escapes).
-/

namespace OplogEmitterSpec

/-- A JavaScript runtime value, restricted to the shapes the library's
argument validation can observe. Functions are abstracted to a tag naming
them (the built-in checkpoint provider is tagged "getLastTimestamp", the
built-in logger "defaultLog"); objects are association lists of fields. -/
inductive JSValue where
  | vStr (s : String)
  | vNum (n : Int)
  | vBool (b : Bool)
  | vNull
  | vUndefined
  | vFun (tag : String)
  | vObj (fields : List (String × JSValue))

/-- JS `typeof` operator. Note `typeof null` is the string "object". -/
def jsTypeof : JSValue → String
  | JSValue.vStr _ => "string"
  | JSValue.vNum _ => "number"
  | JSValue.vBool _ => "boolean"
  | JSValue.vNull => "object"
  | JSValue.vUndefined => "undefined"
  | JSValue.vFun _ => "function"
  | JSValue.vObj _ => "object"

/-- JS truthiness (empty string, 0, false, null and undefined are falsy). -/
def jsTruthy : JSValue → Bool
  | JSValue.vStr s => s ≠ ""
  | JSValue.vNum n => n ≠ 0
  | JSValue.vBool b => b
  | JSValue.vNull => false
  | JSValue.vUndefined => false
  | JSValue.vFun _ => true
  | JSValue.vObj _ => true

/-- Strict comparison against `undefined` (JS `x === undefined`). -/
def isUndefined : JSValue → Bool
  | JSValue.vUndefined => true
  | _ => false

/-- Property read on an object: first matching field, else `undefined`. -/
def lookupField : List (String × JSValue) → String → JSValue
  | [], _ => JSValue.vUndefined
  | (k, v) :: rest, key => if k = key then v else lookupField rest key

/-- Failure of `validateArgs`: either a `TypeError` the source throws
explicitly (with its message), or the runtime `TypeError` JS raises when a
property of `null` is read (recording the property name). -/
inductive JSError where
  | typeError (msg : String)
  | nullPropertyAccess (prop : String)
deriving DecidableEq

/-- The normalized options object `validateArgs` returns (the source
mutates and returns its argument; fields keep their JS values). -/
structure OplogOptions where
  oplogURL : JSValue
  getLastTimestamp : JSValue
  database : JSValue
  collection : JSValue
  credentials : JSValue
  retries : JSValue
  log : JSValue
  timestampTimeout : JSValue

/-- Translation of `validateArgs` from src/lib/index.js: wrap a string
argument as an options object, reject non-objects, then check and default
each field in source order. Reading `oplogURL` (or `credentials.username`)
off `null` is the runtime `nullPropertyAccess` error, since
`typeof null` is "object" and passes the preceding check. -/
def validateArgs (input : JSValue) : Except JSError OplogOptions :=
  let args := if jsTypeof input = "string" then JSValue.vObj [("oplogURL", input)] else input
  if jsTypeof args ≠ "object" then
    Except.error (JSError.typeError "argument should be a connectionstring or a map of options")
  else
    match args with
    | JSValue.vNull => Except.error (JSError.nullPropertyAccess "oplogURL")
    | JSValue.vObj fs =>
      let oplogURL := lookupField fs "oplogURL"
      if isUndefined oplogURL then Except.error (JSError.typeError "oplogURL must be specified")
      else if jsTypeof oplogURL ≠ "string" then Except.error (JSError.typeError "oplogURL must be a string")
      else
      let getLastTimestamp :=
        if isUndefined (lookupField fs "getLastTimestamp") then JSValue.vFun "getLastTimestamp"
        else lookupField fs "getLastTimestamp"
      if jsTypeof getLastTimestamp ≠ "function" then
        Except.error (JSError.typeError "getLastTimestamp should be a function that returns a Promise to a Mongo Timestamp")
      else
      let database :=
        if isUndefined (lookupField fs "database") then JSValue.vStr ".*" else lookupField fs "database"
      if jsTypeof database ≠ "string" then Except.error (JSError.typeError "database should be a string")
      else
      let collection :=
        if isUndefined (lookupField fs "collection") then JSValue.vStr ".*" else lookupField fs "collection"
      if jsTypeof collection ≠ "string" then Except.error (JSError.typeError "collection should be a string")
      else
      let credentials := lookupField fs "credentials"
      let credCheck : Option JSError :=
        match credentials with
        | JSValue.vUndefined => none
        | JSValue.vNull => some (JSError.nullPropertyAccess "username")
        | JSValue.vObj cfs =>
          let username := lookupField cfs "username"
          if jsTruthy username = false then
            some (JSError.typeError "credentials should have an attribute username that is a string")
          else if jsTypeof username ≠ "string" then
            some (JSError.typeError "credentials should have an attribute username that is a string")
          else
          let password := lookupField cfs "password"
          if jsTruthy password = false then
            some (JSError.typeError "credentials should have an attribute password that is a string")
          else if jsTypeof password ≠ "string" then
            some (JSError.typeError "credentials should have an attribute password that is a string")
          else none
        | _ => some (JSError.typeError "credentials should be provided as an object")
      match credCheck with
      | some e => Except.error e
      | none =>
        let retries :=
          if isUndefined (lookupField fs "retries") then JSValue.vNum 5 else lookupField fs "retries"
        if jsTypeof retries ≠ "number" then Except.error (JSError.typeError "retries should be a number")
        else
        let log :=
          if isUndefined (lookupField fs "log") then JSValue.vFun "defaultLog" else lookupField fs "log"
        if jsTypeof log ≠ "function" then Except.error (JSError.typeError "log should be a function that logs strings")
        else
        let timestampTimeout :=
          if isUndefined (lookupField fs "timestampTimeout") then JSValue.vNum 30000
          else lookupField fs "timestampTimeout"
        if jsTypeof timestampTimeout ≠ "number" then
          Except.error (JSError.typeError "timestampTimeout should be a number")
        else Except.ok
          { oplogURL := oplogURL, getLastTimestamp := getLastTimestamp, database := database,
            collection := collection, credentials := credentials, retries := retries,
            log := log, timestampTimeout := timestampTimeout }
    | _ => Except.error (JSError.typeError "argument should be a connectionstring or a map of options")

/-- A raw oplog document as the cursor delivers it. The payload `o` is
abstracted to an opaque string; `ns` is the namespace "database.collection",
`op` the operation code, `ts` the log timestamp. -/
structure OplogEvent where
  ns : String
  op : String
  o : String
  ts : Nat
deriving DecidableEq, Repr

/-- A token of the regex fragment reachable from the source: the pattern the
router builds is the interpolation of the configured database and collection
around an escaped dot, so literal characters, the wildcard ".", the Kleene
star and backslash escapes cover it. -/
inductive Tok where
  | lit (c : Char)
  | anyChar
  | star (t : Tok)
deriving DecidableEq, Repr

/-- Whether a single (non-star) token matches one character; the JS wildcard
"." matches every character except the four line terminators. -/
def tokMatch : Tok → Char → Bool
  | Tok.lit a, c => a == c
  | Tok.anyChar, c => !(c == '\n' || c == '\r' || c == Char.ofNat 0x2028 || c == Char.ofNat 0x2029)
  | Tok.star t, c => tokMatch t c

/-- Compile a pattern string to tokens: a backslash escapes the next
character to a literal, "." is the wildcard, "*" makes the previous token
repeatable. The accumulator holds the tokens read so far, reversed. -/
def parsePattern : List Char → List Tok → List Tok
  | [], acc => acc.reverse
  | '\\' :: c :: rest, acc => parsePattern rest (Tok.lit c :: acc)
  | ['\\'], acc => acc.reverse
  | '*' :: rest, t :: acc => parsePattern rest (Tok.star t :: acc)
  | '*' :: rest, [] => parsePattern rest []
  | '.' :: rest, acc => parsePattern rest (Tok.anyChar :: acc)
  | c :: rest, acc => parsePattern rest (Tok.lit c :: acc)

/-- Does the token list match some prefix of the character list? Fuel-based
structural recursion: every step shortens tokens or input, so any fuel above
their combined length is enough. -/
def matchHere : Nat → List Tok → List Char → Bool
  | 0, _, _ => false
  | _ + 1, [], _ => true
  | fuel + 1, Tok.star t :: ts, s =>
    matchHere fuel ts s ||
      (match s with
       | [] => false
       | c :: cs => tokMatch t c && matchHere fuel (Tok.star t :: ts) cs)
  | _ + 1, _ :: _, [] => false
  | fuel + 1, t :: ts, c :: cs => tokMatch t c && matchHere fuel ts cs

/-- Unanchored search: try to match at every start position, as JS
`String.prototype.match` does for a pattern with no anchors. -/
def searchFrom (toks : List Tok) : List Char → Bool
  | [] => matchHere (toks.length + 1) toks []
  | c :: cs =>
    matchHere (toks.length + (c :: cs).length + 1) toks (c :: cs) || searchFrom toks cs

/-- JS `s.match(pattern)` coerced to a boolean: the string pattern is
compiled to a regex and searched anywhere in `s`. -/
def jsStringMatch (pattern s : String) : Bool :=
  searchFrom (parsePattern pattern.data []) s.data

/-- The pattern the router interpolates: `database` ++ an escaped dot ++
`collection` (the JS template literal puts a single backslash before the
dot, so the dot between the two configured patterns is literal while the
patterns themselves are spliced in unescaped). -/
def nsPattern (database collection : String) : String :=
  database ++ "\\." ++ collection

/-- The router's namespace filter: `oplogEvent.ns.match(pattern)`. -/
def nsMatches (database collection : String) (e : OplogEvent) : Bool :=
  jsStringMatch (nsPattern database collection) e.ns

/-- Translation of `routeEvent` from src/lib/index.js: a non-matching
namespace emits nothing; otherwise the generic "op" signal is emitted first
and the switch on the operation code adds at most one specialized signal.
The result lists the emissions of `emitter.emit` in order. -/
def routeEvent (database collection : String) (e : OplogEvent) : List (String × OplogEvent) :=
  if !(nsMatches database collection e) then []
  else
    ("op", e) ::
      (match e.op with
       | "i" => [("insert", e)]
       | "d" => [("delete", e)]
       | "u" => [("update", e)]
       | _ => [])

/-- The tailing stage's "data" handler applied to a finite prefix of the
cursor stream: every document is routed in arrival order and the emissions
concatenate. -/
def processStream (database collection : String) : List OplogEvent → List (String × OplogEvent)
  | [] => []
  | e :: rest => routeEvent database collection e ++ processStream database collection rest

/-- A log-sink call: either a plain message string, or the driver error
object produced by a failed strict collection lookup (recorded by the
collection name that was looked up). -/
inductive LogEntry where
  | message (s : String)
  | lookupError (collectionName : String)
deriving DecidableEq

/-- Translation of `getOplogCollection` from src/lib/index.js over an
abstract database handle: `db name` is the strict collection lookup
(`db.collection(name, strict, cb)`), `some` a found handle, `none` the
error the driver passes to the callback. Returns the lookups performed in
order, the log calls made, and the settled promise. -/
def getOplogCollection {α : Type} (db : String → Option α) :
    List String × List LogEntry × Except String α :=
  match db "oplog.rs" with
  | some oplog => (["oplog.rs"], [], Except.ok oplog)
  | none =>
    match db "oplog.$main" with
    | some mainOplog =>
      (["oplog.rs", "oplog.$main"], [LogEntry.lookupError "oplog.rs"], Except.ok mainOplog)
    | none =>
      (["oplog.rs", "oplog.$main"],
       [LogEntry.lookupError "oplog.rs", LogEntry.lookupError "oplog.$main"],
       Except.error "Could not find oplog collection. Make sure mongodb is configured for replication")

/-- Credentials as validated: both fields strings. -/
structure Credentials where
  username : String
  password : String
deriving DecidableEq

/-- The `auth` driver option built by `connectToMongo`. -/
structure MongoAuth where
  user : String
  password : String
deriving DecidableEq

/-- The options object handed to `new MongoClient(oplogURL, options)`;
`none` fields are absent from the object. -/
structure MongoClientOptions where
  auth : Option MongoAuth
  authSource : Option String
deriving DecidableEq

/-- Translation of the options construction in `connectToMongo`
(src/lib/index.js): with credentials, auth carries the username and
password and `authSource` is the literal string "adming"; without
credentials the options object is empty. -/
def connectOptions (credentials : Option Credentials) : MongoClientOptions :=
  match credentials with
  | some c => { auth := some { user := c.username, password := c.password }, authSource := some "adming" }
  | none => { auth := none, authSource := none }

/-- A value a rejected promise can carry in this pipeline: a bare string
(promise-poller rejects with the string "master timeout"), an Error object
(recorded by its message), an array of per-attempt errors, or undefined. -/
inductive RejectVal where
  | str (s : String)
  | errObj (msg : String)
  | arr (vs : List RejectVal)
  | undef

/-- Translation of the constructor's catch handler (src/lib/index.js): if
the rejection value is an array take its last element, and if the result is
the string "master timeout" replace it by the timeout Error; everything
else is passed through unchanged. -/
def catchToError (errors : RejectVal) : RejectVal :=
  let error :=
    match errors with
    | RejectVal.arr vs => vs.getLastD RejectVal.undef
    | e => e
  match error with
  | RejectVal.str s =>
    if s = "master timeout" then RejectVal.errObj "getLastTimestamp did not resolve before the timeout"
    else RejectVal.str s
  | e => e

/-- The value the checkpoint provider resolves to: either an actual
`mongodb.Timestamp` (high and increment components) or any other value,
tagged. -/
inductive TSLike where
  | timestamp (high low : Nat)
  | other (tag : String)
deriving DecidableEq

/-- JS `instanceof Timestamp`. -/
def isTimestamp : TSLike → Bool
  | TSLike.timestamp _ _ => true
  | TSLike.other _ => false

/-- Behaviour of the configured checkpoint provider: it resolves at some
time (milliseconds after the poll starts) to some value, or never settles. -/
inductive ProviderOutcome where
  | settles (t : Nat) (v : TSLike)
  | neverSettles

/-- The provider fails to settle within the timeout window. -/
def providerLate (timestampTimeout : Nat) : ProviderOutcome → Bool
  | ProviderOutcome.settles t _ => decide (timestampTimeout ≤ t)
  | ProviderOutcome.neverSettles => true

/-- Modelled from the spec: the constructor polls `getLastTimestamp` with
promise-poller using a master timeout of `timestampTimeout`; the external
poller library is not part of src/, so its documented behaviour is
embedded: if the task settles strictly before the timeout its value comes
through at that time, otherwise the poll rejects with the string
"master timeout" once `timestampTimeout` milliseconds have elapsed.
Returns the settle time and outcome of the poll promise. -/
def pollGetLastTimestamp (timestampTimeout : Nat) :
    ProviderOutcome → Nat × Except RejectVal TSLike
  | ProviderOutcome.settles t v =>
    if t < timestampTimeout then (t, Except.ok v)
    else (timestampTimeout, Except.error (RejectVal.str "master timeout"))
  | ProviderOutcome.neverSettles =>
    (timestampTimeout, Except.error (RejectVal.str "master timeout"))

/-- The options of the tailable cursor opened on the oplog. -/
structure CursorOptions where
  tailable : Bool
  awaitdata : Bool
  oplogReplay : Bool
  numberOfRetries : Int
deriving DecidableEq

/-- The tailing query the constructor builds on success: a cursor over
documents with `ts` strictly greater than the checkpoint, with the tailable
options from the source. -/
structure TailingSetup where
  tsExclusiveLowerBound : TSLike
  options : CursorOptions
deriving DecidableEq

/-- One caller-visible emission of the pipeline: a named signal carrying an
oplog document, or the terminal "error" emission. -/
inductive Emission where
  | signal (name : String) (e : OplogEvent)
  | error (v : RejectVal)

/-- The checkpoint-resolution stage of the constructor (src/lib/index.js):
poll the provider under the master timeout; on a resolved value that is not
a `mongodb.Timestamp` throw the invalid-checkpoint Error (so no cursor is
opened); on success build the tailing cursor setup. Every thrown or
rejected value reaches the catch handler and is emitted once as "error".
Returns the time the stage settled, the cursor setup if one was opened,
and the emissions. -/
def checkpointStage (timestampTimeout : Nat) (p : ProviderOutcome) :
    Nat × Option TailingSetup × List Emission :=
  match pollGetLastTimestamp timestampTimeout p with
  | (t, Except.ok lastTimestamp) =>
    if isTimestamp lastTimestamp then
      (t, some { tsExclusiveLowerBound := lastTimestamp,
                 options := { tailable := true, awaitdata := true, oplogReplay := true,
                              numberOfRetries := -1 } }, [])
    else
      (t, none,
       [Emission.error (catchToError (RejectVal.errObj "getLastTimestamp() should return a mongodb.Timestamp"))])
  | (t, Except.error e) => (t, none, [Emission.error (catchToError e)])

/-- The tailing run over a finite prefix of the cursor stream: the "data"
handler routes each document in order; if the stream then ends
(`streamEnds`), the "end" handler logs the closure and emits the
cursor-closed error after all data emissions. -/
def tailingRun (database collection : String) (es : List OplogEvent) (streamEnds : Bool) :
    List LogEntry × List Emission :=
  let dataEmissions := (processStream database collection es).map (fun p => Emission.signal p.1 p.2)
  if streamEnds then
    ([LogEntry.message "Tailable cursor was closed"],
     dataEmissions ++ [Emission.error (RejectVal.errObj "Database cursor closed unexpectedly")])
  else ([], dataEmissions)

/-! ## Helper lemmas -/

theorem routeEvent_nonmatching (database collection : String) (e : OplogEvent)
    (h : nsMatches database collection e = false) :
    routeEvent database collection e = [] := by
  simp [routeEvent, h]

theorem routeEvent_filter_op (database collection : String) (e : OplogEvent) :
    (routeEvent database collection e).filter (fun p => p.1 == "op") =
      if nsMatches database collection e then [("op", e)] else [] := by
  by_cases h : nsMatches database collection e
  · rcases e with ⟨ns, op, o, ts⟩
    simp only [routeEvent, h, Bool.not_true, Bool.false_eq_true, if_false, if_true]
    split <;> simp [List.filter]
  · simp [routeEvent_nonmatching database collection e (by simpa using h), h]

theorem processStream_drop_nonmatching (database collection : String) (es : List OplogEvent) :
    processStream database collection
      (es.filter (fun e => !(nsMatches database collection e))) = [] := by
  induction es with
  | nil => rfl
  | cons e rest ih =>
    by_cases h : nsMatches database collection e
    · simpa [List.filter_cons, h] using ih
    · simp only [List.filter_cons, h, Bool.not_false, if_true, processStream,
        routeEvent_nonmatching database collection e (by simpa using h), List.nil_append]
      simpa using ih

theorem processStream_matching_only (database collection : String) (es : List OplogEvent) :
    processStream database collection es =
      processStream database collection
        (es.filter (fun e => nsMatches database collection e)) := by
  induction es with
  | nil => rfl
  | cons e rest ih =>
    by_cases h : nsMatches database collection e
    · simp [List.filter_cons, h, processStream, ih]
    · simp only [List.filter_cons, h, if_false, processStream,
        routeEvent_nonmatching database collection e (by simpa using h), List.nil_append]
      simpa [h] using ih

theorem processStream_op_signals (database collection : String) (es : List OplogEvent) :
    (processStream database collection es).filter (fun p => p.1 == "op") =
      (es.filter (fun e => nsMatches database collection e)).map (fun e => ("op", e)) := by
  induction es with
  | nil => rfl
  | cons e rest ih =>
    simp only [processStream, List.filter_append, routeEvent_filter_op, List.filter_cons]
    by_cases h : nsMatches database collection e <;> simp [h, ih]

/-! ## Claim theorems -/

/-- C1: a raw oplog event whose namespace matches the active filter emits
the generic "op" signal first and then exactly one specialized signal
chosen by the operation code ("insert" for "i", "delete" for "d", "update"
for "u"), both carrying the identical event; an operation code outside
those three emits only the generic "op" signal. -/
theorem routeEvent_op_then_specialized (database collection : String) (e : OplogEvent)
    (h : nsMatches database collection e = true) :
    routeEvent database collection e =
      ("op", e) ::
        (if e.op = "i" then [("insert", e)]
         else if e.op = "d" then [("delete", e)]
         else if e.op = "u" then [("update", e)]
         else []) := by
  rcases e with ⟨ns, op, o, ts⟩
  simp only [routeEvent, h, Bool.not_true, Bool.false_eq_true, if_false]
  split <;> simp_all

theorem routeEvent_op_then_specialized_witness :
    routeEvent "a" "b" { ns := "a.b", op := "i", o := "payload", ts := 7 } =
      [("op", { ns := "a.b", op := "i", o := "payload", ts := 7 }),
       ("insert", { ns := "a.b", op := "i", o := "payload", ts := 7 })] := by
  rw [routeEvent_op_then_specialized "a" "b" _ (by decide)]
  rfl

/-- C2: over any finite input sequence, events whose namespace does not
match the filter produce no signals, the output is exactly the output on
the matching subsequence (same relative order, no duplication, no drop),
and the "op" signals are in bijection with the matching events in input
order. -/
theorem stream_filter_order_no_dup_no_drop (database collection : String)
    (es : List OplogEvent) :
    processStream database collection
        (es.filter (fun e => !(nsMatches database collection e))) = [] ∧
    processStream database collection es =
      processStream database collection
        (es.filter (fun e => nsMatches database collection e)) ∧
    (processStream database collection es).filter (fun p => p.1 == "op") =
      (es.filter (fun e => nsMatches database collection e)).map (fun e => ("op", e)) :=
  ⟨processStream_drop_nonmatching database collection es,
   processStream_matching_only database collection es,
   processStream_op_signals database collection es⟩

/-- C3 counterexample: the claim fails on the code in two ways. At input
`null` (typeof "object" in JS) the non-string/non-object check passes and
validation instead dies reading `oplogURL` off `null`; and the message the
code throws for non-string/non-object input spells "connectionstring" as
one word, not "connection string". -/
theorem validateArgs_claimC3_counterexample :
    (validateArgs JSValue.vNull = Except.error (JSError.nullPropertyAccess "oplogURL") ∧
      JSError.nullPropertyAccess "oplogURL" ≠
        JSError.typeError "argument should be a connection string or a map of options") ∧
    (validateArgs (JSValue.vNum 3) =
        Except.error
          (JSError.typeError "argument should be a connectionstring or a map of options") ∧
      ("argument should be a connectionstring or a map of options" : String) ≠
        "argument should be a connection string or a map of options") :=
  ⟨⟨rfl, fun h => JSError.noConfusion h⟩, ⟨rfl, by decide⟩⟩

/-- C3 (amended): every constructor input whose JS typeof is neither
"string" nor "object" fails with the TypeError message
"argument should be a connectionstring or a map of options" before any
other check runs; `null`, whose typeof is "object", instead passes that
check and fails with the runtime property-access error on `oplogURL`. -/
theorem validateArgs_non_string_non_object (v : JSValue)
    (h1 : jsTypeof v ≠ "string") (h2 : jsTypeof v ≠ "object") :
    validateArgs v =
      Except.error
        (JSError.typeError "argument should be a connectionstring or a map of options") ∧
    validateArgs JSValue.vNull = Except.error (JSError.nullPropertyAccess "oplogURL") := by
  constructor
  · cases v with
    | vStr s => exact absurd rfl h1
    | vNull => exact absurd rfl h2
    | vObj fs => exact absurd rfl h2
    | vNum n => rfl
    | vBool b => rfl
    | vUndefined => rfl
    | vFun t => rfl
  · rfl

theorem validateArgs_non_string_non_object_witness :
    validateArgs (JSValue.vBool true) =
      Except.error
        (JSError.typeError "argument should be a connectionstring or a map of options") :=
  (validateArgs_non_string_non_object (JSValue.vBool true) (by decide) (by decide)).1

/-- C4: a configuration supplying only `oplogURL` validates successfully
and is normalized with database ".*", collection ".*", retries 5,
timestampTimeout 30000, the built-in checkpoint provider, the built-in
logger, and no credentials. -/
theorem validateArgs_defaults (s : String) :
    validateArgs (JSValue.vObj [("oplogURL", JSValue.vStr s)]) =
      Except.ok
        { oplogURL := JSValue.vStr s
          getLastTimestamp := JSValue.vFun "getLastTimestamp"
          database := JSValue.vStr ".*"
          collection := JSValue.vStr ".*"
          credentials := JSValue.vUndefined
          retries := JSValue.vNum 5
          log := JSValue.vFun "defaultLog"
          timestampTimeout := JSValue.vNum 30000 } := rfl

/-- C5: oplog collection resolution tries "oplog.rs" strictly first and
returns it alone on success; only if that lookup fails does it log the
failure and try "oplog.$main" strictly, returning that handle; if both
fail it logs both failures and rejects with the oplog-not-found message. -/
theorem getOplogCollection_resolution {α : Type} (db : String → Option α) :
    (∀ h, db "oplog.rs" = some h →
      getOplogCollection db = (["oplog.rs"], [], Except.ok h)) ∧
    (∀ h, db "oplog.rs" = none → db "oplog.$main" = some h →
      getOplogCollection db =
        (["oplog.rs", "oplog.$main"], [LogEntry.lookupError "oplog.rs"], Except.ok h)) ∧
    (db "oplog.rs" = none → db "oplog.$main" = none →
      getOplogCollection db =
        (["oplog.rs", "oplog.$main"],
         [LogEntry.lookupError "oplog.rs", LogEntry.lookupError "oplog.$main"],
         Except.error
           "Could not find oplog collection. Make sure mongodb is configured for replication")) := by
  refine ⟨?_, ?_, ?_⟩
  · intro h hrs
    simp [getOplogCollection, hrs]
  · intro h hrs hm
    simp [getOplogCollection, hrs, hm]
  · intro hrs hm
    simp [getOplogCollection, hrs, hm]

theorem getOplogCollection_resolution_witness :
    getOplogCollection (fun name => if name = "oplog.$main" then some 7 else none) =
      (["oplog.rs", "oplog.$main"], [LogEntry.lookupError "oplog.rs"], Except.ok 7) :=
  ((getOplogCollection_resolution
      (fun name => if name = "oplog.$main" then some 7 else none)).2.1) 7 rfl rfl

/-- C6: if the checkpoint provider does not settle within
`timestampTimeout` milliseconds, the stage produces exactly one "error"
emission carrying the message
"getLastTimestamp did not resolve before the timeout", opens no cursor,
and settles no earlier than `timestampTimeout` after resolution begins. -/
theorem checkpoint_timeout_error (timestampTimeout : Nat) (p : ProviderOutcome)
    (h : providerLate timestampTimeout p = true) :
    checkpointStage timestampTimeout p =
      (timestampTimeout, none,
       [Emission.error
          (RejectVal.errObj "getLastTimestamp did not resolve before the timeout")]) ∧
    timestampTimeout ≤ (checkpointStage timestampTimeout p).1 := by
  cases p with
  | neverSettles => exact ⟨rfl, Nat.le_refl _⟩
  | settles t v =>
    have ht : timestampTimeout ≤ t := of_decide_eq_true h
    have hnot : ¬ t < timestampTimeout := Nat.not_lt.mpr ht
    refine ⟨?_, ?_⟩
    · simp [checkpointStage, pollGetLastTimestamp, hnot, catchToError]
    · simp [checkpointStage, pollGetLastTimestamp, hnot]

theorem checkpoint_timeout_error_witness :
    checkpointStage 5 ProviderOutcome.neverSettles =
      (5, none,
       [Emission.error
          (RejectVal.errObj "getLastTimestamp did not resolve before the timeout")]) ∧
    (5 : Nat) ≤ (checkpointStage 5 ProviderOutcome.neverSettles).1 :=
  checkpoint_timeout_error 5 ProviderOutcome.neverSettles rfl

/-- C7: a checkpoint provider that resolves in time to a value that is not
a `mongodb.Timestamp` opens no tailing cursor; the stage instead produces
exactly one "error" emission carrying the message
"getLastTimestamp() should return a mongodb.Timestamp". -/
theorem invalid_checkpoint_error (timestampTimeout t : Nat) (v : TSLike)
    (h1 : isTimestamp v = false) (h2 : t < timestampTimeout) :
    checkpointStage timestampTimeout (ProviderOutcome.settles t v) =
      (t, none,
       [Emission.error
          (RejectVal.errObj "getLastTimestamp() should return a mongodb.Timestamp")]) := by
  simp [checkpointStage, pollGetLastTimestamp, h2, h1, catchToError]

theorem invalid_checkpoint_error_witness :
    checkpointStage 10 (ProviderOutcome.settles 1 (TSLike.other "string")) =
      (1, none,
       [Emission.error
          (RejectVal.errObj "getLastTimestamp() should return a mongodb.Timestamp")]) :=
  invalid_checkpoint_error 10 1 (TSLike.other "string") rfl (by decide)

/-- C8: when the tailing stream ends, the pipeline logs
"Tailable cursor was closed" and emits an "error" carrying
"Database cursor closed unexpectedly" after the data emissions; when the
stream has not ended, neither the log line nor the error occurs. -/
theorem cursor_end_emits_error (database collection : String) (es : List OplogEvent) :
    tailingRun database collection es true =
      ([LogEntry.message "Tailable cursor was closed"],
       (processStream database collection es).map (fun p => Emission.signal p.1 p.2) ++
         [Emission.error (RejectVal.errObj "Database cursor closed unexpectedly")]) ∧
    tailingRun database collection es false =
      ([], (processStream database collection es).map (fun p => Emission.signal p.1 p.2)) :=
  ⟨rfl, rfl⟩

/-- C9: with credentials supplied, the driver options carry
auth.user = username, auth.password = password, and authSource is the
literal string "adming" (not "admin"); without credentials the options
object is empty. -/
theorem connectToMongo_auth_options (c : Credentials) :
    connectOptions (some c) =
      { auth := some { user := c.username, password := c.password }
        authSource := some "adming" } ∧
    (connectOptions (some c)).authSource ≠ some "admin" ∧
    connectOptions none = { auth := none, authSource := none } :=
  ⟨rfl, by simp [connectOptions], rfl⟩

/-- C10: the router matches the configured strings as the unanchored
pattern database ++ escaped dot ++ collection anywhere in the namespace,
without escaping metacharacters in the configured parts: with database "a"
and collection "b" the namespace "xa.bz" matches (and is routed), the
escaped dot is literal (so "ab" does not match), and a "*" in the
collection acts as a regex star rather than a literal character. -/
theorem namespace_regex_unanchored :
    nsPattern "a" "b" = "a\\.b" ∧
    jsStringMatch (nsPattern "a" "b") "xa.bz" = true ∧
    jsStringMatch (nsPattern "a" "b") "ab" = false ∧
    jsStringMatch (nsPattern "a" "b*") "a." = true ∧
    routeEvent "a" "b" { ns := "xa.bz", op := "i", o := "x", ts := 0 } =
      [("op", { ns := "xa.bz", op := "i", o := "x", ts := 0 }),
       ("insert", { ns := "xa.bz", op := "i", o := "x", ts := 0 })] :=
  ⟨rfl, by decide, by decide, by decide, by decide⟩

end OplogEmitterSpec
